import Mathlib

/-!
Shallow embedding of the probe programs of the `rust-systemd-run` test-aux
suite (`src/test-aux/*.c`, `*.cc`) and proofs about their exit-code and
side-effect behaviour.

Modelling conventions:
* Each probe's `main` becomes a Lean function; interaction with the OS
  (`setuid`, `malloc`, `clock_gettime`, `fopen`, `fscanf`, `shmget`) is
  abstracted by explicit parameters describing the outcome of those calls.
* Persistent OS state (the filesystem and the set of existing System V
  shared-memory keys, both of which outlive a process) is an explicit
  `OsState` value threaded through the probes that can touch it; probes
  whose code performs no filesystem or IPC call return the state unchanged.
* Exit codes are `Nat`.
-/

namespace TestAux

/-- Persistent OS state that outlives any single probe process: the
filesystem (a map from path to file content) and the set of existing
System V shared-memory keys. -/
structure OsState where
  files : String → Option String
  shmKeys : List Nat

/-- The empty OS state: no files, no shared-memory segments. -/
def emptyState : OsState := ⟨fun _ => none, []⟩

/-! ## Privilege-mapping probe (`setuid.c`)

```c
int main()
{
        /* UID 514 should not exist in a separate user namespace. */
        return setuid(514) >= 0 || errno != EINVAL;
}
```
-/

/-- Outcome of a `setuid` call: success, or failure with an `errno` value. -/
inductive SetuidResult where
  | ok : SetuidResult
  | err (errno : Nat) : SetuidResult
deriving DecidableEq, Repr

/-- The `EINVAL` errno value on Linux. -/
def EINVAL : Nat := 22

/-- The fixed UID the privilege-mapping probe tries to switch to. -/
def setuidProbeUid : Nat := 514

/-- The `main` of `setuid.c`: call `setuid(514)` (its outcome given by the
environment `sys`); the C expression `setuid(514) >= 0 || errno != EINVAL`
converts the boolean to the exit code, so exit 0 exactly when the call
failed with `EINVAL`. -/
def setuidMain (sys : Nat → SetuidResult) : Nat :=
  match sys setuidProbeUid with
  | .ok => 1
  | .err e => if e ≠ EINVAL then 1 else 0

/-- Probe `setuid.c` run as a process over persistent OS state: the program
performs no filesystem or IPC operation, so the state is unchanged. -/
def setuidRun (sys : Nat → SetuidResult) (st : OsState) : Nat × OsState :=
  (setuidMain sys, st)

/-! ## Memory-pressure probe (`memory.c`)

```c
int main()
{
        char *x = malloc(256 << 20);
        if (!x)
                return 1;
        memset(x, 1, 256 << 20);
        barrier();
        return 0;
}
```
-/

/-- The fixed allocation size of `memory.c`: `256 << 20` bytes (256 MiB). -/
def memBlockSize : Nat := 256 * 2 ^ 20

/-- Result of a run of `memory.c`: the exit code and how many bytes of the
allocated block were written by `memset`. -/
structure MemResult where
  exit : Nat
  bytesWritten : Nat
deriving DecidableEq, Repr

/-- The `main` of `memory.c`: `mallocOk` tells whether `malloc(256 << 20)`
returned non-null.  On null return exit 1 with nothing written; otherwise
`memset` writes all `256 << 20` bytes and the program exits 0. -/
def memoryMain (mallocOk : Bool) : MemResult :=
  if mallocOk then ⟨0, memBlockSize⟩ else ⟨1, 0⟩

/-- Probe `memory.c` run over persistent OS state: no filesystem or IPC call, so
the state is unchanged. -/
def memoryRun (mallocOk : Bool) (st : OsState) : MemResult × OsState :=
  (memoryMain mallocOk, st)

/-! ## Shared-memory isolation probe (`shm.c`)

```c
int main()
{
        int r = shmget(114, 4096, IPC_CREAT | IPC_EXCL);
        if (r < 0) {
                perror("shmget");
                return 1;
        }
        return 0;
}
```
-/

/-- The fixed well-known IPC key used by `shm.c`. -/
def shmKey : Nat := 114

/-- Result of a run of `shm.c`: exit code, number of `shmget` calls made,
and whether an error was reported on stderr (`perror`). -/
structure ShmResult where
  exit : Nat
  attempts : Nat
  errorReported : Bool
deriving DecidableEq, Repr

/-- Whether the exclusive creation `shmget(114, 4096, IPC_CREAT | IPC_EXCL)`
succeeds in state `st`: the key must not already exist (`IPC_EXCL` fails
with `EEXIST` on an existing key) and no unrelated system failure
(`sysOk`, e.g. `ENOSPC`) may occur. -/
def shmCreateOk (st : OsState) (sysOk : Bool) : Bool :=
  sysOk && !(st.shmKeys.contains shmKey)

/-- The `main` of `shm.c` over persistent OS state: exactly one `shmget` call;
on failure report the error and exit 1; on success the new segment under
key 114 is recorded in the OS state (System V segments persist after the
creating process exits) and the program exits 0. -/
def shmRun (sysOk : Bool) (st : OsState) : ShmResult × OsState :=
  if shmCreateOk st sysOk then
    (⟨0, 1, false⟩, ⟨st.files, shmKey :: st.shmKeys⟩)
  else
    (⟨1, 1, true⟩, st)

/-! ## File round-trip probe (`rw.c`)

```c
static const char *content = "1145141919810";

int main(int argc, char **argv)
{
        FILE *f;
        int w = 0;

        if (argc != 3 && argc != 2) { usage; return 1; }
        if (strcmp(argv[1], "w") == 0) w = 1;
        else if (strcmp(argv[1], "r") != 0) { usage; return 1; }
        if (argc == 2) f = w ? stdout : stdin;
        else f = fopen(argv[2], argv[1]);
        if (!f) { perror("fopen"); return 2; }
        if (w) { if (fputs(content, f) < 0) return 3; }
        else {
                char buf[256];
                if (fscanf(f, "%s", buf) != 1) return 3;
                if (strcmp(buf, content) != 0) return 4;
        }
        return 0;
}
```
-/

/-- The fixed oracle token written and compared by `rw.c`. -/
def content : String := "1145141919810"

/-- Outcomes of the libc calls `rw.c` can make, abstracting the target
(stream or file): whether `fopen` succeeds, whether `fputs` succeeds, and
the token delivered by `fscanf(f, "%s", buf)` (`none` = no token could be
scanned). -/
structure RwEnv where
  openOk : Bool
  writeOk : Bool
  scanResult : Option String

/-- The `main` of `rw.c`, with `argv` the full argument vector (including the
program name, so `argv.length` is `argc`) and `env` the outcomes of the
libc calls.  Mirrors the source control flow branch by branch. -/
def rwMain (argv : List String) (env : RwEnv) : Nat :=
  if argv.length ≠ 3 ∧ argv.length ≠ 2 then 1
  else
    let arg1 := (argv.get? 1).getD ""
    let w := arg1 = "w"
    if ¬ w ∧ arg1 ≠ "r" then 1
    else
      let fOk := if argv.length = 2 then true else env.openOk
      if ¬ (fOk = true) then 2
      else if w then
        if ¬ (env.writeOk = true) then 3 else 0
      else
        match env.scanResult with
        | none => 3
        | some tok => if tok ≠ content then 4 else 0

/-- The C `isspace` characters in the default locale, which delimit a
`%s` conversion: space, tab, newline, vertical tab, form feed, carriage
return. -/
def isSpaceChar (c : Char) : Bool :=
  c == ' ' || c == '\t' || c == '\n' || c == '\x0b' || c == '\x0c' || c == '\r'

/-- What `fscanf(f, "%s", buf)` scans from a stream with contents `s`:
skip leading whitespace, then the maximal run of non-whitespace
characters; `none` (conversion failure / EOF) when no such character
exists.  Characters model bytes (the file contents of interest are
ASCII). -/
def firstToken (s : String) : Option String :=
  let tok := (s.toList.dropWhile isSpaceChar).takeWhile fun c => !isSpaceChar c
  if tok.isEmpty then none else some (String.mk tok)

/-- The libc environment `rw.c` sees when run against filesystem `fs` with
a path argument: `fopen(path, "r")` succeeds iff the file exists,
`fopen(path, "w")` creates/truncates and succeeds, `fputs` succeeds, and
`fscanf` yields the first whitespace-delimited token of the file. -/
def rwEnvOf (fs : String → Option String) (argv : List String) : RwEnv :=
  match argv.get? 1, argv.get? 2 with
  | some m, some p =>
      ⟨if m = "r" then (fs p).isSome else true, true, (fs p).bind firstToken⟩
  | _, _ => ⟨true, true, none⟩

/-- Effect of a run of `rw.c` on the filesystem: only a well-formed
write-mode invocation with a path writes, leaving the oracle token as the
content of that path; every other invocation changes no file. -/
def rwUpdate (fs : String → Option String) (argv : List String) :
    String → Option String :=
  match argv with
  | [_, m, p] =>
      if m = "w" then fun q => if q = p then some content else fs q else fs
  | _ => fs

/-- Probe `rw.c` run as a process over persistent OS state. -/
def rwRun (argv : List String) (st : OsState) : Nat × OsState :=
  (rwMain argv (rwEnvOf st.files argv), ⟨rwUpdate st.files argv, st.shmKeys⟩)

/-- The stack buffer of the read branch: `char buf[256]`. -/
def rwBufSize : Nat := 256

/-- Bytes `fscanf(f, "%s", buf)` stores for a scanned token: the token's
bytes plus the terminating NUL.  The conversion is unbounded (no field
width), so this is independent of the buffer size. -/
def scanBytesStored (tok : String) : Nat := tok.length + 1

/-- The token `fscanf` scans into `buf` in a run of `rw.c`, when the run
reaches the read branch with a successfully opened target; `none` when the
scan is never executed.  Follows the same control flow as `rwMain`. -/
def rwScannedToken (argv : List String) (env : RwEnv) : Option String :=
  if argv.length ≠ 3 ∧ argv.length ≠ 2 then none
  else
    let arg1 := (argv.get? 1).getD ""
    let w := arg1 = "w"
    if ¬ w ∧ arg1 ≠ "r" then none
    else
      let fOk := if argv.length = 2 then true else env.openOk
      if ¬ (fOk = true) then none
      else if w then none
      else env.scanResult

/-- A concrete 256-byte whitespace-free token, one byte longer than the
largest token the read branch's buffer can hold safely. -/
def longTok : String := String.mk (List.replicate 256 'a')

/-! ## CPU-accounting probe (`cpuset.cc`)

```c++
std::atomic<bool> failed(false);

void thread()
{
        struct timespec sp;
        do {
                for (volatile int i = 0; i < 10000; i++);
                if (clock_gettime(CLOCK_PROCESS_CPUTIME_ID, &sp) != 0) {
                        failed.store(true);
                        break;
                }
        } while (sp.tv_sec < 1);
}

int main()
{
        std::thread a(thread);
        std::thread b(thread);
        a.join();
        b.join();
        return failed;
}
```
-/

/-- Iteration count of the barrier busy loop inside each worker. -/
def cpusetBusyIters : Nat := 10000

/-- Number of worker threads `main` of `cpuset.cc` spawns. -/
def cpusetWorkerCount : Nat := 2

/-- The worker (`thread` of `cpuset.cc`), driven by the trace of its
`clock_gettime(CLOCK_PROCESS_CPUTIME_ID, ·)` samples: each entry is
`none` if the call failed, otherwise the sampled `tv_sec`.  Each
iteration busy-loops then samples; a failed sample stores `true` into the
shared flag and breaks; otherwise the do-while continues while
`tv_sec < 1`.  Returns whether this worker set the failure flag. -/
def cpusetWorker : List (Option Nat) → Bool
  | [] => false
  | none :: _ => true
  | some s :: rest => if s < 1 then cpusetWorker rest else false

/-- The `main` of `cpuset.cc`: spawn the two workers, join both, then return
the shared atomic flag as the exit code.  The flag is only ever written
`true`, so reading it after both joins is order-insensitive and the
sequential model is faithful. -/
def cpusetMain (trA trB : List (Option Nat)) : Nat :=
  if cpusetWorker trA || cpusetWorker trB then 1 else 0

/-- A worker's clock-sample trace hits a failed time query: some sample is
`none` and every earlier sample kept the do-while looping
(`tv_sec < 1`). -/
def TraceQueryFails (tr : List (Option Nat)) : Prop :=
  ∃ k, tr.get? k = some none ∧
    ∀ j, j < k → ∃ s, tr.get? j = some (some s) ∧ s < 1

/-- Probe `cpuset.cc` run over persistent OS state: no filesystem or IPC call. -/
def cpusetRun (trA trB : List (Option Nat)) (st : OsState) : Nat × OsState :=
  (cpusetMain trA trB, st)

/-! ## Termination-handling probe (`orga-itsuka.c`)

```c
int main()
{
        struct sigaction sa = { .sa_handler = SIG_IGN, };
        sigaction(SIGTERM, &sa, NULL);
        while (1)
                usleep(10000);
}
```
-/

/-- Disposition of a signal after `main`'s `sigaction` call. -/
inductive SigDisposition where
  | dfl : SigDisposition
  | ignore : SigDisposition
deriving DecidableEq, Repr

/-- The SIGTERM signal number on Linux. -/
def SIGTERM : Nat := 15

/-- The signal-handler table after `sigaction(SIGTERM, &sa, NULL)` with
`sa.sa_handler = SIG_IGN`: SIGTERM is ignored, everything else keeps its
default disposition. -/
def orgaHandlers (sig : Nat) : SigDisposition :=
  if sig = SIGTERM then .ignore else .dfl

/-- Process state of the main loop of `orga-itsuka.c`. -/
inductive OrgaState where
  | running (iters : Nat) : OrgaState
  | exited (code : Nat) : OrgaState
deriving DecidableEq, Repr

/-- One iteration of `while (1) usleep(10000);`: sleep briefly, loop
again.  No branch of the loop body leads to an exit. -/
def orgaStep : OrgaState → OrgaState
  | .running n => .running (n + 1)
  | .exited c => .exited c

/-- The state of `orga-itsuka.c` after `n` iterations of its main loop. -/
def orgaMainAfter (n : Nat) : OrgaState := orgaStep^[n] (.running 0)

/-- Probe `orga-itsuka.c` run over persistent OS state: `sigaction` and
`usleep` touch no filesystem or IPC resource, so after any number of loop
iterations the persistent state is unchanged (and the process is still
running). -/
def orgaRun (n : Nat) (st : OsState) : OrgaState × OsState :=
  (orgaMainAfter n, st)

/-! ## PID-churn probe (`waste-pid.cc`)

```c++
void thread(int x)
{
        if (x == 0)
                return;
        auto t = std::thread(thread, x - 1);
        t.join();
}

int main()
{
        thread(100);
        return 0;
}
```
-/

/-- Function `thread` of `waste-pid.cc` as a chain description: `chainSpawns x` is
the number of child threads the call `thread(x)` creates in total.  A call
with `x = 0` returns immediately; a call with `x > 0` spawns exactly one
child running `thread(x - 1)` and joins it before returning.  Lean's
termination checker certifies that the argument strictly decreases to
0. -/
def chainSpawns : Nat → Nat
  | 0 => 0
  | x + 1 => chainSpawns x + 1

/-- The fixed chain depth in `main` of `waste-pid.cc`: `thread(100)`. -/
def wastePidDepth : Nat := 100

/-- The `main` of `waste-pid.cc`: run the chain, then `return 0`
unconditionally.  The pair records (exit code, total spawned units). -/
def wastePidMain : Nat × Nat := (0, chainSpawns wastePidDepth)

/-- Probe `waste-pid.cc` run over persistent OS state: threads die with the
process; no filesystem or IPC call. -/
def wastePidRun (st : OsState) : Nat × OsState := (wastePidMain.1, st)

/-! ## Minimal-runtime probe (`minimal.c`): exits 0 via a raw syscall. -/

/-- Entry point `_start` of `minimal.c`: exit 0 by construction, no other effect. -/
def minimalRun (st : OsState) : Nat × OsState := (0, st)

/-- The invocation selects write mode: the mode argument equals `"w"`. -/
def RwModeWrite (argv : List String) : Prop :=
  (argv.get? 1).getD "" = "w"

/-- The invocation of `rw.c` is malformed: the argument count is neither 2
nor 3, or the mode argument is neither `"w"` nor `"r"`. -/
def RwUsageError (argv : List String) : Prop :=
  (argv.length ≠ 2 ∧ argv.length ≠ 3) ∨
    ((argv.get? 1).getD "" ≠ "w" ∧ (argv.get? 1).getD "" ≠ "r")

/-- The probe obtains a usable stream: either no path was given (the
standard stream is used, which is never null) or `fopen` succeeded. -/
def RwOpenPasses (argv : List String) (env : RwEnv) : Prop :=
  argv.length = 2 ∨ env.openOk = true

/-! ## Theorems -/

/-- C1: the privilege-mapping probe exits 0 if and only if the `setuid`
call to the fixed UID 514 fails with errno `EINVAL` (the "no such identity
in this namespace" error); for every other outcome of the call — success,
or failure with a different errno — the exit code is nonzero (namely
1). -/
theorem setuid_probe_exit (sys : Nat → SetuidResult) :
    (setuidMain sys = 0 ↔ sys setuidProbeUid = SetuidResult.err EINVAL) ∧
    (setuidMain sys = 0 ∨ setuidMain sys = 1) := by
  unfold setuidMain
  cases h : sys setuidProbeUid with
  | ok => simp
  | err e => by_cases he : e = EINVAL <;> simp [he]

/-- C7: the memory-pressure probe exits 0 if and only if the allocation of
the fixed 256 MiB block succeeds and every byte of the block is then
written; it exits 1 if and only if the allocation returns null; 0 and 1
are its only exit codes. -/
theorem memory_probe_exit (b : Bool) :
    ((memoryMain b).exit = 0 ↔
      b = true ∧ (memoryMain b).bytesWritten = memBlockSize) ∧
    ((memoryMain b).exit = 1 ↔ b = false) ∧
    ((memoryMain b).exit = 0 ∨ (memoryMain b).exit = 1) := by
  cases b <;> simp [memoryMain]

/-- C8: the termination-handling probe installs an ignore handler for
SIGTERM and never exits on its own: after any number `n` of loop
iterations it is still in the running state, so no iteration count reaches
a normal exit. -/
theorem orga_probe_never_exits :
    orgaHandlers SIGTERM = SigDisposition.ignore ∧
    (∀ n, orgaMainAfter n = OrgaState.running n) ∧
    (∀ n c, orgaMainAfter n ≠ OrgaState.exited c) := by
  have hrun : ∀ n, orgaMainAfter n = OrgaState.running n := by
    intro n
    induction n with
    | zero => rfl
    | succ k ih =>
      unfold orgaMainAfter at ih ⊢
      rw [Function.iterate_succ_apply', ih]
      rfl
  refine ⟨rfl, hrun, ?_⟩
  intro n c h
  rw [hrun n] at h
  exact OrgaState.noConfusion h

/-- C9: the PID-churn probe's chain has fixed depth exactly 100, the call
`thread(x)` spawns exactly `x` child units in total (the depth argument
strictly decreases to 0, so the recursion terminates), and `main` exits 0
unconditionally. -/
theorem wastepid_probe (x : Nat) :
    wastePidMain = (0, 100) ∧ wastePidDepth = 100 ∧ chainSpawns x = x := by
  refine ⟨rfl, rfl, ?_⟩
  induction x with
  | zero => rfl
  | succ k ih => simp [chainSpawns, ih]

/-- The worker of `cpuset.cc` sets the shared failure flag exactly when
its clock-sample trace hits a failed time query before any sample reaches
one second. -/
lemma cpusetWorker_eq_true_iff (tr : List (Option Nat)) :
    cpusetWorker tr = true ↔ TraceQueryFails tr := by
  induction tr with
  | nil =>
    simp only [cpusetWorker, TraceQueryFails]
    constructor
    · intro h; exact absurd h (by simp)
    · rintro ⟨k, hk, -⟩; simp at hk
  | cons a rest ih =>
    cases a with
    | none =>
      simp only [cpusetWorker, TraceQueryFails]
      constructor
      · intro _
        exact ⟨0, rfl, fun j hj => absurd hj (Nat.not_lt_zero j)⟩
      · intro _; trivial
    | some s =>
      by_cases hs : s < 1
      · simp only [cpusetWorker, if_pos hs]
        rw [ih]
        constructor
        · rintro ⟨k, hk, hearlier⟩
          refine ⟨k + 1, by simpa using hk, ?_⟩
          intro j hj
          cases j with
          | zero => exact ⟨s, by simp, hs⟩
          | succ j' =>
            obtain ⟨t, ht, ht1⟩ := hearlier j' (by omega)
            exact ⟨t, by simpa using ht, ht1⟩
        · rintro ⟨k, hk, hearlier⟩
          cases k with
          | zero => simp at hk
          | succ k' =>
            refine ⟨k', by simpa using hk, ?_⟩
            intro j hj
            obtain ⟨t, ht, ht1⟩ := hearlier (j + 1) (by omega)
            exact ⟨t, by simpa using ht, ht1⟩
      · simp only [cpusetWorker, if_neg hs]
        constructor
        · intro h; exact absurd h (by simp)
        · rintro ⟨k, hk, hearlier⟩
          cases k with
          | zero => simp at hk
          | succ k' =>
            obtain ⟨t, ht, ht1⟩ := hearlier 0 (Nat.succ_pos k')
            simp at ht
            omega

/-- C3: the round-trip probe's exit code is exactly one of 0 (success),
1 (malformed invocation: argument count not 2 or 3, or mode not `"r"` or
`"w"`), 2 (opening the given path failed), 3 (the write, or the token
read, failed), or 4 (a token was read but differs from the oracle
token). -/
theorem rw_probe_exit_codes (argv : List String) (env : RwEnv) :
    (rwMain argv env = 0 ∨ rwMain argv env = 1 ∨ rwMain argv env = 2 ∨
      rwMain argv env = 3 ∨ rwMain argv env = 4) ∧
    (rwMain argv env = 1 ↔ RwUsageError argv) ∧
    (rwMain argv env = 2 ↔
      ¬ RwUsageError argv ∧ argv.length = 3 ∧ env.openOk = false) ∧
    (rwMain argv env = 3 ↔
      ¬ RwUsageError argv ∧ RwOpenPasses argv env ∧
        ((RwModeWrite argv ∧ env.writeOk = false) ∨
          (¬ RwModeWrite argv ∧ env.scanResult = none))) ∧
    (rwMain argv env = 4 ↔
      ¬ RwUsageError argv ∧ RwOpenPasses argv env ∧ ¬ RwModeWrite argv ∧
        ∃ tok, env.scanResult = some tok ∧ tok ≠ content) := by
  unfold rwMain RwUsageError RwOpenPasses RwModeWrite
  obtain ⟨openOk, writeOk, scanResult⟩ := env
  cases scanResult with
  | none =>
    by_cases h2 : argv.length = 2 <;> by_cases h3 : argv.length = 3 <;>
      by_cases hw : (argv.get? 1).getD "" = "w" <;>
      by_cases hr : (argv.get? 1).getD "" = "r" <;>
      cases openOk <;> cases writeOk <;> simp_all
  | some tok =>
    by_cases ht : tok = content <;>
      by_cases h2 : argv.length = 2 <;> by_cases h3 : argv.length = 3 <;>
      by_cases hw : (argv.get? 1).getD "" = "w" <;>
      by_cases hr : (argv.get? 1).getD "" = "r" <;>
      cases openOk <;> cases writeOk <;> simp_all

/-- C4: over the filesystem model, for every path `p`: write mode on `p`
exits 0 and a subsequent read of `p` exits 0; read mode on a path whose
first whitespace-delimited token differs from the oracle token exits 4;
read mode on a nonexistent path exits 2. -/
theorem rw_roundtrip (fs : String → Option String) (prog prog2 p : String) :
    (rwMain [prog, "w", p] (rwEnvOf fs [prog, "w", p]) = 0 ∧
      rwMain [prog2, "r", p]
        (rwEnvOf (rwUpdate fs [prog, "w", p]) [prog2, "r", p]) = 0) ∧
    (∀ s tok, fs p = some s → firstToken s = some tok → tok ≠ content →
      rwMain [prog, "r", p] (rwEnvOf fs [prog, "r", p]) = 4) ∧
    (fs p = none → rwMain [prog, "r", p] (rwEnvOf fs [prog, "r", p]) = 2) := by
  have hfc : firstToken content = some content := by decide
  refine ⟨⟨?_, ?_⟩, ?_, ?_⟩
  · simp [rwMain, rwEnvOf]
  · have hupd : rwUpdate fs [prog, "w", p] p = some content := by
      simp [rwUpdate]
    simp [rwMain, rwEnvOf, hupd, hfc]
  · intro s tok hfs hft htok
    simp [rwMain, rwEnvOf, hfs, hft, htok]
  · intro hfs
    simp [rwMain, rwEnvOf, hfs]

/-- Witness for C4 at concrete inputs: a mismatching token gives exit 4, a
missing file gives exit 2, and a write gives exit 0. -/
theorem rw_roundtrip_witness :
    rwMain ["rw", "r", "f"] (rwEnvOf (fun _ => some "x") ["rw", "r", "f"]) = 4 ∧
    rwMain ["rw", "r", "f"] (rwEnvOf (fun _ => none) ["rw", "r", "f"]) = 2 ∧
    rwMain ["rw", "w", "f"] (rwEnvOf (fun _ => none) ["rw", "w", "f"]) = 0 := by
  refine ⟨?_, ?_, ?_⟩
  · exact (rw_roundtrip (fun _ => some "x") "rw" "rw" "f").2.1 "x" "x" rfl
      (by decide) (by decide)
  · exact (rw_roundtrip (fun _ => none) "rw" "rw" "f").2.2 rfl
  · exact (rw_roundtrip (fun _ => none) "rw" "rw" "f").1.1

/-- C5: the read branch scans one token into the fixed 256-byte buffer
with an unbounded conversion, storing the token's bytes plus a NUL: the
store fits the buffer exactly when the token is at most 255 bytes, any
token of 256 bytes or more overruns the buffer, and the scan of an
arbitrary token (in particular an overlong one) is reachable from the
public interface in read mode. -/
theorem rw_scan_overflow :
    (∀ tok : String, scanBytesStored tok ≤ rwBufSize ↔ tok.length ≤ 255) ∧
    (∀ tok : String, 256 ≤ tok.length → rwBufSize < scanBytesStored tok) ∧
    (∀ (fs : String → Option String) (prog p tok : String),
      fs p = some tok → firstToken tok = some tok →
      rwScannedToken [prog, "r", p] (rwEnvOf fs [prog, "r", p]) =
        some tok) := by
  refine ⟨?_, ?_, ?_⟩
  · intro tok; unfold scanBytesStored rwBufSize; omega
  · intro tok h; unfold scanBytesStored rwBufSize; omega
  · intro fs prog p tok hfs hft
    simp [rwScannedToken, rwEnvOf, hfs, hft]

set_option maxRecDepth 10000 in
/-- Witness for C5: the concrete 256-byte token overruns the buffer and is
scanned in an actual read-mode run. -/
theorem rw_scan_overflow_witness :
    rwBufSize < scanBytesStored longTok ∧
    rwScannedToken ["rw", "r", "f"]
      (rwEnvOf (fun _ => some longTok) ["rw", "r", "f"]) = some longTok := by
  constructor
  · exact rw_scan_overflow.2.1 longTok (by decide)
  · exact rw_scan_overflow.2.2 (fun _ => some longTok) "rw" "f" longTok rfl
      (by decide)

/-- C6: the CPU-accounting probe runs exactly two workers, each looping
on its clock-sample trace until a sample reaches one second or a query
fails; it exits 1 exactly when a time query failed on at least one worker
(before that worker saw one second of CPU time) and exits 0 otherwise,
these being its only exit codes. -/
theorem cpuset_probe_exit (trA trB : List (Option Nat)) :
    cpusetWorkerCount = 2 ∧
    (cpusetMain trA trB = 0 ∨ cpusetMain trA trB = 1) ∧
    (cpusetMain trA trB = 1 ↔ TraceQueryFails trA ∨ TraceQueryFails trB) := by
  refine ⟨rfl, ?_, ?_⟩
  · unfold cpusetMain
    by_cases h : (cpusetWorker trA || cpusetWorker trB) = true <;> simp [h]
  · unfold cpusetMain
    rw [← cpusetWorker_eq_true_iff, ← cpusetWorker_eq_true_iff]
    by_cases hA : cpusetWorker trA <;> by_cases hB : cpusetWorker trB <;>
      simp [hA, hB]

/-- C2 counterexample: the shared-memory probe, run in the empty OS state,
leaves the persistent state changed after it exits — the System V segment
it created under key 114 remains registered — so it is not true that only
the round-trip probe leaves a persistent OS resource behind. -/
theorem shm_leaves_segment_counterexample :
    (shmRun true emptyState).2 ≠ emptyState ∧
    (shmRun true emptyState).1.exit = 0 ∧
    (shmRun true emptyState).2.shmKeys = [shmKey] := by
  refine ⟨?_, rfl, rfl⟩
  intro h
  exact absurd (congrArg OsState.shmKeys h) (by decide)

/-- C2 amended: every probe other than the round-trip probe and the
shared-memory probe — including the termination-handling probe at any
point of its unbounded loop — leaves the persistent OS state unchanged;
the round-trip probe changes nothing outside write mode and, in write
mode, changes no file other than the caller-provided path (and never the
shared-memory keys); the shared-memory probe changes only the
shared-memory keys, at most adding the segment under key 114 (which
persists after the process exits). -/
theorem probe_state_effects (sys : Nat → SetuidResult) (b : Bool)
    (trA trB : List (Option Nat)) (sysOk : Bool) (argv : List String)
    (n : Nat) (st : OsState) :
    (setuidRun sys st).2 = st ∧
    (memoryRun b st).2 = st ∧
    (cpusetRun trA trB st).2 = st ∧
    (wastePidRun st).2 = st ∧
    (minimalRun st).2 = st ∧
    (orgaRun n st).2 = st ∧
    (rwRun argv st).2.shmKeys = st.shmKeys ∧
    (¬ RwModeWrite argv → (rwRun argv st).2 = st) ∧
    (∀ q, argv.get? 2 ≠ some q → (rwRun argv st).2.files q = st.files q) ∧
    (shmRun sysOk st).2.files = st.files ∧
    ((shmRun sysOk st).2.shmKeys = st.shmKeys ∨
      (shmRun sysOk st).2.shmKeys = shmKey :: st.shmKeys) := by
  obtain ⟨files, keys⟩ := st
  refine ⟨rfl, rfl, rfl, rfl, rfl, rfl, rfl, ?_, ?_, ?_, ?_⟩
  · intro hm
    have hupd : rwUpdate files argv = files := by
      unfold RwModeWrite at hm
      rcases argv with - | ⟨a, - | ⟨m, - | ⟨p, - | ⟨x, rest⟩⟩⟩⟩ <;>
        simp_all [rwUpdate]
    simp [rwRun, hupd]
  · intro q hq
    rcases argv with - | ⟨a, - | ⟨m, - | ⟨p, - | ⟨x, rest⟩⟩⟩⟩
    · rfl
    · rfl
    · rfl
    · have hpq : q ≠ p := by
        intro h
        exact hq (by simp [h])
      by_cases hm : m = "w" <;> simp [rwRun, rwUpdate, hm, hpq]
    · rfl
  · unfold shmRun
    by_cases h : shmCreateOk ⟨files, keys⟩ sysOk = true <;> simp [h]
  · unfold shmRun
    by_cases h : shmCreateOk ⟨files, keys⟩ sysOk = true <;> simp [h]

/-- Witness for C2 (amended): a concrete read-mode run of the round-trip
probe leaves the empty OS state unchanged, and a concrete write-mode run
leaves every path other than the given one unchanged. -/
theorem probe_state_effects_witness :
    (rwRun ["rw", "r", "f"] emptyState).2 = emptyState ∧
    (rwRun ["rw", "w", "f"] emptyState).2.files "g" = none := by
  constructor
  · have h := probe_state_effects (fun _ => SetuidResult.ok) true [] [] true
      ["rw", "r", "f"] 0 emptyState
    exact h.2.2.2.2.2.2.2.1 (by unfold RwModeWrite; decide)
  · have h := probe_state_effects (fun _ => SetuidResult.ok) true [] [] true
      ["rw", "w", "f"] 0 emptyState
    exact h.2.2.2.2.2.2.2.2.1 "g" (by decide)

/-- C10: the shared-memory probe makes exactly one exclusive-creation
attempt under the fixed key 114; it exits 0 if and only if that creation
succeeds, and exits 1 — reporting the underlying error — if and only if
the creation call fails. -/
theorem shm_probe_exit (sysOk : Bool) (st : OsState) :
    (shmRun sysOk st).1.attempts = 1 ∧
    ((shmRun sysOk st).1.exit = 0 ↔ shmCreateOk st sysOk = true) ∧
    ((shmRun sysOk st).1.exit = 1 ↔ shmCreateOk st sysOk = false) ∧
    ((shmRun sysOk st).1.errorReported = true ↔
      shmCreateOk st sysOk = false) := by
  unfold shmRun
  by_cases h : shmCreateOk st sysOk = true <;>
    simp only [h, if_true, if_false, Bool.not_eq_true] <;> simp [h]

end TestAux
